import Mathlib

/-!
# Verification of the HailMary adversarial training scheduler

A shallow embedding of the manual multi-optimizer training-step state machine
of `src/models/hail_mary.py` (class `HailMary`).  Tensor computation (forward
passes, losses, Phong rendering) is out of scope per the specification; the
embedding models the orchestration contract: phase bookkeeping, gradient
accumulation counters, optimizer indexing, loss-log flush events, and the
error behaviour of the Python control flow (`%` by zero raises
`ZeroDivisionError`, `torch.cat` of an empty list raises).

Conventions:
* `State.generator_training = false` is the `DISC` phase, `true` is `GEN`
  (field `_generator_training` in the source, initial value `False`).
* `State.grads` counts `manual_backward` calls since the last whole-model
  `self.zero_grad()` (line 279); per-optimizer `zero_grad` calls are recorded
  only as effects since they are subsumed by the whole-model zeroing that
  happens on the same (full-batch) calls.
* Machine integers are `Nat`/`Int`; Python `x % 0` raising `ZeroDivisionError`
  is modelled as `Except.error StepErr.divisionByZero`.
* Dictionary-key failures of the source are modelled as `StepErr.keyError`
  carrying the first missing key, because they abort the training step:
  `d_critics_loss` is registered only in `self.critic_losses` (line 188) yet
  accumulated into `self.discriminator_losses` (line 381), so every
  critic-enabled `DISC` call raises; the `phong`/`depth_phong` bank entries
  exist only under `predict_normals` (lines 152-155, 201-204) yet are
  dereferenced unconditionally (lines 311-315, 493-500, 537-541); and
  `_apply_generator_critic_loss` (lines 550-553) accumulates into the
  unregistered keys `g_loss_critic_critic_*` / `g_loss_critic_gp_critic_*`
  (its callers prepend `critic_` to names already carrying it), so every
  critic-enabled `GEN` call raises.
* Forward passes, loss functions and the Phong renderer stay black boxes: any
  failure inside them (shape mismatches, renderer initialization) is out of
  scope per §4/§7 of the specification.
-/

namespace HailMary

/-- The optimizer groups that can occupy a slot of `self._unwrapped_optimizers`
(`hail_mary.py` lines 63-82). -/
inductive OptSlot where
  | genOpt
  | discOpt
  | criticOpt
  | texGenOpt
  | texCriticOpt
  | texDiscOpt
  deriving Repr, DecidableEq

/-- Runtime failures of the scheduler control flow: Python `ZeroDivisionError`
from `%` with a zero divisor, the `torch.cat` failure on an empty list of
reference tensors, and `KeyError` from a dictionary access on a missing key
(the key is recorded). -/
inductive StepErr where
  | divisionByZero
  | emptyConcat
  | keyError (key : String)
  deriving Repr, DecidableEq

/-- The configuration surface consumed by the scheduler
(`config.training_config`, used in `hail_mary.py`).  `generated_source_id`
equals the number of reference sources (line 60:
`len(self.texture_generator.sources)`); `tex_*` flags are the nested
texture-generator's configuration; `num_feature_discriminators` is
`len(d_feat_list)` built in `setup_discriminators`/`setup_critics`. -/
structure Config where
  use_discriminator : Bool
  use_critic : Bool
  use_feature_level : Bool
  predict_normals : Bool
  tex_use_discriminator : Bool
  tex_use_critic : Bool
  accumulate_grad_batches : Nat
  wasserstein_critic_updates : Nat
  generated_source_id : Nat
  num_feature_discriminators : Nat
  deriving Repr, DecidableEq

/-- `len(self.discriminators)`: number of keys of the `ModuleDict`.
`setup_discriminators` (lines 136-171) installs key `features` when
`use_feature_level`, keys `phong`, `depth_phong`, `normals` when
`predict_normals`, and always `depth_image`; when `use_discriminator` is
false the dict stays empty (line 58). -/
def numDiscriminators (cfg : Config) : Nat :=
  if cfg.use_discriminator then
    (if cfg.use_feature_level then 1 else 0) +
      (if cfg.predict_normals then 3 else 0) + 1
  else 0

/-- The scheduler-owned mutable state (`hail_mary.py` lines 84-89 for the
initial values). -/
structure State where
  generator_global_step : Int
  critic_global_step : Nat
  total_train_step_count : Int
  batches_accumulated : Nat
  full_batch : Bool
  generator_training : Bool
  grads : Nat
  deriving Repr, DecidableEq

/-- Initial state set in `__init__` (lines 84-89): `generator_global_step = -1`,
`critic_global_step = 0`, `total_train_step_count = -1`,
`batches_accumulated = 0`, `_full_batch = False`,
`_generator_training = False` (i.e. phase `DISC`), no pending gradients. -/
def initState : State where
  generator_global_step := -1
  critic_global_step := 0
  total_train_step_count := -1
  batches_accumulated := 0
  full_batch := false
  generator_training := false
  grads := 0

/-- Observable side effects of one `training_step` call: the phase the call
ran in, whether the one-shot full-batch flag was set for this call, which
optimizers had `step()`/`zero_grad()` applied (in call order), which loss logs
were divided-logged-reset, and whether the whole-model `zero_grad` at line 279
ran. -/
structure Effects where
  phaseDuring : Bool
  fullDuring : Bool
  stepped : List OptSlot
  flushedGen : Bool
  flushedDisc : Bool
  flushedCritic : Bool
  zeroedAll : Bool
  deriving Repr, DecidableEq

def noEffects : Effects where
  phaseDuring := false
  fullDuring := false
  stepped := []
  flushedGen := false
  flushedDisc := false
  flushedCritic := false
  zeroedAll := false

/-- `generator_train_step` (lines 282-353), scheduler-relevant part.  One
`manual_backward(g_loss)` always runs (line 339).  Under `_full_batch`
(line 341): `generator_global_step += 1` (line 342), the phase is set back to
`DISC` (line 343, *before* the throttle test), and line 344 evaluates
`(self.generator_global_step + 1) % len(self.discriminators)` — with the step
counter already incremented this is the entry value plus 2; in Python a zero
`len` raises `ZeroDivisionError`.  If the remainder is nonzero the method
returns early (line 345); otherwise optimizers `0` (generator) and
`texture_generator_opt_idx` step and clear (lines 346-349) and the generator
loss log is divided, logged and reset (lines 350-353). -/
def genCore (cfg : Config) (s : State) : State × Effects :=
  if s.full_batch then
    ({ s with grads := s.grads + 1,
              generator_global_step := s.generator_global_step + 1,
              generator_training := false },
     if (s.generator_global_step + 2) % (numDiscriminators cfg : Int) = 0 then
       { noEffects with stepped := [OptSlot.genOpt, OptSlot.texGenOpt],
                        flushedGen := true }
     else noEffects)
  else
    ({ s with grads := s.grads + 1 }, noEffects)

/-- The first unregistered key hit by `_apply_generator_critic_loss`
(line 552) during a critic-enabled generator step: with feature-level critics
present the feature loop (lines 318-323) runs first and accesses
`g_loss_critic_critic_feature_0`; otherwise line 325 accesses
`g_loss_critic_critic_depth_img`.  (The registered keys of lines 199/215 are
`g_loss_critic_feature_i` / `g_loss_critic_depth_img`; the call sites pass
names that already start with `critic_`.) -/
def genCriticLossKey (cfg : Config) : String :=
  if cfg.use_feature_level && !(cfg.num_feature_discriminators == 0) then
    "g_loss_critic_critic_feature_0"
  else "g_loss_critic_critic_depth_img"

/-- Failure modes of `generator_train_step`, in the order the source hits
them: with a discriminator enabled but `predict_normals` false, line 311
dereferences the missing bank entry `discriminators['phong']` (`KeyError`);
with the critic enabled, line 552 accumulates into an unregistered
`g_loss_critic_critic_*` key (`KeyError`) — both before `manual_backward`
(line 339) and the full-batch block (line 341); finally the throttle test of
line 344, evaluated only on a full batch, divides by zero when the
discriminator dict is empty. -/
def generator_train_step (cfg : Config) (s : State) :
    Except StepErr (State × Effects) :=
  if cfg.use_discriminator && !cfg.predict_normals then .error (.keyError "phong")
  else if cfg.use_critic then .error (.keyError (genCriticLossKey cfg))
  else if s.full_batch && (numDiscriminators cfg == 0) then .error .divisionByZero
  else .ok (genCore cfg s)

/-- Success-path computation of `discriminator_critic_train_step`
(lines 355-426).  `first` and `last` are the cadence tests of lines 362-364,
evaluated with the entry value of `critic_global_step`.  The four backward
passes (discriminator line 369, critic line 380, texture critic line 395,
texture discriminator line 405) are gated exactly as in the source; on a full
batch their optimizers step and clear, `critic_global_step` advances once when
an (outer or texture) critic update occurred (lines 387 and 400-401), the
critic loss log flushes when any critic is enabled (lines 411-417), the
discriminator loss log flushes on the first mini-batch of the cadence when any
discriminator is enabled (lines 419-424), and the phase flips to `GEN` on the
last mini-batch of the cadence (lines 425-426).  The `use_critic` branches
transcribe lines 362-364, 377-387 and 411-417 as written, but they are
unreachable: `discriminator_critic_train_step` below aborts every
critic-enabled call at line 381's `KeyError` (or earlier), so this core is
only ever evaluated with `use_critic = false`, where `last` is `true` and
`critic_global_step` can advance only through the texture critic
(lines 400-401). -/
def discCore (cfg : Config) (s : State) : State × Effects :=
  let wcu := cfg.wasserstein_critic_updates
  let first := s.critic_global_step % wcu == 0
  let last := if cfg.use_critic then (s.critic_global_step + 1) % wcu == 0 else true
  let full := s.full_batch
  let doDisc := cfg.use_discriminator && first
  let doTexDisc := cfg.tex_use_discriminator && first
  let grads1 := s.grads + (if doDisc then 1 else 0) + (if cfg.use_critic then 1 else 0)
      + (if cfg.tex_use_critic then 1 else 0) + (if doTexDisc then 1 else 0)
  let cgs1 := if cfg.use_critic && full then s.critic_global_step + 1
              else s.critic_global_step
  let cgs2 := if cfg.tex_use_critic && full && !cfg.use_critic then cgs1 + 1 else cgs1
  let stepped := (if doDisc && full then [OptSlot.discOpt] else [])
      ++ (if cfg.use_critic && full then [OptSlot.criticOpt] else [])
      ++ (if cfg.tex_use_critic && full then [OptSlot.texCriticOpt] else [])
      ++ (if doTexDisc && full then [OptSlot.texDiscOpt] else [])
  ({ s with critic_global_step := cgs2,
            grads := grads1,
            generator_training := if full && last then true else s.generator_training },
   { noEffects with
       stepped := stepped,
       flushedDisc := full && (first && (cfg.tex_use_discriminator || cfg.use_discriminator)),
       flushedCritic := full && (cfg.tex_use_critic || cfg.use_critic) })

/-- `discriminator_critic_train_step` (lines 355-426) with its Python failure
modes, in source order.  Line 362 evaluates
`critic_global_step % wasserstein_critic_updates`, raising `ZeroDivisionError`
when the cadence is zero.  The discriminator block (lines 366-375, entered on
the first mini-batch of the cadence) calls `_discriminators`, which first
concatenates the reference tensors (line 473, raising when there is no
reference source) and then dereferences `discriminators['phong']` (line 493,
`KeyError` when `predict_normals` is false).  The critic block (lines 377-387)
calls `_critics`, which likewise concatenates at line 521 and dereferences
`critics['phong']` at line 537; if `_critics` returns, line 381 accumulates
into `discriminator_losses['d_critics_loss']`, a key registered only in
`critic_losses` (line 188) — `KeyError` on every critic-enabled call, before
the step/flush/flip code of lines 382-426. -/
def discriminator_critic_train_step (cfg : Config) (s : State) :
    Except StepErr (State × Effects) :=
  if cfg.wasserstein_critic_updates = 0 then .error .divisionByZero
  else if cfg.use_discriminator
          && (s.critic_global_step % cfg.wasserstein_critic_updates == 0)
          && (cfg.generated_source_id == 0) then .error .emptyConcat
  else if cfg.use_discriminator
          && (s.critic_global_step % cfg.wasserstein_critic_updates == 0)
          && !cfg.predict_normals then .error (.keyError "phong")
  else if cfg.use_critic && (cfg.generated_source_id == 0) then .error .emptyConcat
  else if cfg.use_critic && !cfg.predict_normals then .error (.keyError "phong")
  else if cfg.use_critic then .error (.keyError "d_critics_loss")
  else .ok (discCore cfg s)

/-- Lines 268-272 of `training_step`: advance `total_train_step_count`,
increment `batches_accumulated`, and when it reaches
`accumulate_grad_batches` set the one-shot `_full_batch` flag and reset the
counter to 0. -/
def preStep (cfg : Config) (s : State) : State :=
  { s with
    total_train_step_count := s.total_train_step_count + 1,
    batches_accumulated :=
      if s.batches_accumulated + 1 = cfg.accumulate_grad_batches then 0
      else s.batches_accumulated + 1,
    full_batch :=
      if s.batches_accumulated + 1 = cfg.accumulate_grad_batches then true
      else s.full_batch }

/-- Lines 278-280 of `training_step`: on a full batch `self.zero_grad()`
clears the gradients of the whole model, and the one-shot `_full_batch` flag
is cleared in every case.  `phase` is the phase the call dispatched in. -/
def postStep (phase : Bool) (r : State × Effects) : State × Effects :=
  ({ r.1 with grads := if r.1.full_batch then 0 else r.1.grads,
              full_batch := false },
   { r.2 with phaseDuring := phase,
              fullDuring := r.1.full_batch,
              zeroedAll := r.1.full_batch })

/-- `training_step` (lines 261-280): counter bookkeeping, dispatch on the
current phase to the generator or discriminator/critic step, then the
full-batch `zero_grad` and flag reset. -/
def training_step (cfg : Config) (s : State) : Except StepErr (State × Effects) :=
  Except.map (postStep s.generator_training)
    (if s.generator_training then generator_train_step cfg (preStep cfg s)
     else discriminator_critic_train_step cfg (preStep cfg s))

/-- Iterate `training_step`, discarding effects; errors abort the run (a
training-step failure is fatal to the run). -/
def iterateStep (cfg : Config) : Nat → State → Except StepErr State
  | 0, s => .ok s
  | n + 1, s =>
    match training_step cfg s with
    | .error e => .error e
    | .ok (s', _) => iterateStep cfg n s'

/-- Run `n` training-step calls collecting the per-call effects in order. -/
def runEffects (cfg : Config) : Nat → State → Except StepErr (List Effects)
  | 0, _ => .ok []
  | n + 1, s =>
    match training_step cfg s with
    | .error e => .error e
    | .ok (s', eff) => Except.map (eff :: ·) (runEffects cfg n s')

/-- Run `n` training-step calls collecting the post-call states in order. -/
def runStates (cfg : Config) : Nat → State → Except StepErr (List State)
  | 0, _ => .ok []
  | n + 1, s =>
    match training_step cfg s with
    | .error e => .error e
    | .ok (s', _) => Except.map (s' :: ·) (runStates cfg n s')

/-- Run `n` training-step calls, returning the final state and the per-call
effects in order. -/
def runAll (cfg : Config) : Nat → State → Except StepErr (State × List Effects)
  | 0, s => .ok (s, [])
  | n + 1, s =>
    match training_step cfg s with
    | .error e => .error e
    | .ok (s', eff) => Except.map (fun r => (r.1, eff :: r.2)) (runAll cfg n s')

/-! ## Setup-time optimizer registry (`__init__`, lines 61-82) -/

/-- Modelled from the spec: `DepthNormModel.configure_optimizers` is not part
of the sources; the nested texture generator's optimizers are returned in the
order generator, then critic (if enabled), then discriminator (if enabled),
which is the order the outer index arithmetic of lines 74-82 assumes and §4.4
of the specification describes for the texture group. -/
def texture_configure_optimizers (cfg : Config) : List OptSlot :=
  [OptSlot.texGenOpt]
    ++ (if cfg.tex_use_critic then [OptSlot.texCriticOpt] else [])
    ++ (if cfg.tex_use_discriminator then [OptSlot.texDiscOpt] else [])

/-- The outer optimizers appended by `__init__` before the texture generator's:
`setup_generator_optimizer` (line 64), then `setup_critics` when `use_critic`
(lines 65-66, appending at line 217), then `setup_discriminators` when
`use_discriminator` (lines 67-68, appending at line 169). -/
def outer_optimizers (cfg : Config) : List OptSlot :=
  [OptSlot.genOpt]
    ++ (if cfg.use_critic then [OptSlot.criticOpt] else [])
    ++ (if cfg.use_discriminator then [OptSlot.discOpt] else [])

/-- `self._unwrapped_optimizers` after `__init__` finished (line 78 extends
with the texture generator's optimizers). -/
def unwrapped_optimizers (cfg : Config) : List OptSlot :=
  outer_optimizers cfg ++ texture_configure_optimizers cfg

/-- `self.critic_opt_idx`: initialized to 0 (line 61), incremented once at the
end of `setup_critics` (line 219). -/
def critic_opt_idx (cfg : Config) : Nat :=
  if cfg.use_critic then 1 else 0

/-- `self.discriminators_opt_idx`: initialized to 0 (line 62), set to
`critic_opt_idx + 1` at the end of `setup_discriminators` (line 171). -/
def discriminators_opt_idx (cfg : Config) : Nat :=
  if cfg.use_discriminator then critic_opt_idx cfg + 1 else 0

/-- `self.texture_generator_opt_idx = len(self._unwrapped_optimizers)`
(line 74), recorded before the texture optimizers are appended. -/
def texture_generator_opt_idx (cfg : Config) : Nat :=
  (outer_optimizers cfg).length

/-- `self.texture_critic_opt_idx` (lines 75-76). -/
def texture_critic_opt_idx (cfg : Config) : Nat :=
  if cfg.tex_use_critic then texture_generator_opt_idx cfg + 1
  else texture_generator_opt_idx cfg

/-- `self.texture_discriminator_opt_idx = texture_critic_opt_idx + 1`
(line 82). -/
def texture_discriminator_opt_idx (cfg : Config) : Nat :=
  texture_critic_opt_idx cfg + 1

/-- The optimizer order as §3 "OptimizerIndex" of the specification words it:
generator, then discriminators (if enabled), then critics (if enabled), then
the texture-generator group.  Stated for comparison with
`unwrapped_optimizers`, which is what the source builds. -/
def spec_dependency_order (cfg : Config) : List OptSlot :=
  [OptSlot.genOpt]
    ++ (if cfg.use_discriminator then [OptSlot.discOpt] else [])
    ++ (if cfg.use_critic then [OptSlot.criticOpt] else [])
    ++ [OptSlot.texGenOpt]
    ++ (if cfg.tex_use_critic then [OptSlot.texCriticOpt] else [])
    ++ (if cfg.tex_use_discriminator then [OptSlot.texDiscOpt] else [])

/-! ## Setup-time loss dictionaries and their merge (`__init__`, lines 55-73) -/

/-- Python `base.update(upd)` on dictionaries: existing keys keep their
position but take the updating value; new keys are appended in update order.
A colliding key is silently overwritten — there is no error path. -/
def dictUpdate {α β : Type} [BEq α] (base upd : List (α × β)) : List (α × β) :=
  base.map (fun kv => (kv.1, (upd.lookup kv.1).getD kv.2))
  ++ upd.filter (fun kv => (base.lookup kv.1).isNone)

/-- Keys of `self.generator_losses` when line 70 runs: `g_loss` (line 56),
plus the keys registered by `setup_critics` (lines 199, 211-212, 215) — called
first — and `setup_discriminators` (lines 151, 162-163, 167).  All values are
initialized to zero. -/
def generator_losses_setup (cfg : Config) : List (String × Int) :=
  [("g_loss", 0)]
  ++ (if cfg.use_critic then
        (if cfg.use_feature_level then
          (List.range cfg.num_feature_discriminators).map
            (fun i => ("g_loss_critic_feature_" ++ toString i, 0))
         else [])
        ++ (if cfg.predict_normals then
              [("g_loss_critic_phong", 0), ("g_loss_critic_depth_phong", 0),
               ("g_loss_critic_normals", 0)]
            else [])
        ++ [("g_loss_critic_depth_img", 0)]
      else [])
  ++ (if cfg.use_discriminator then
        (if cfg.use_feature_level then
          (List.range cfg.num_feature_discriminators).map
            (fun i => ("g_loss_discriminator_feature_" ++ toString i, 0))
         else [])
        ++ (if cfg.predict_normals then
              [("g_loss_discriminator_phong", 0), ("g_loss_discriminator_depth_phong", 0),
               ("g_loss_discriminator_normals", 0)]
            else [])
        ++ [("g_loss_discriminator_depth_img", 0)]
      else [])

/-- Keys of `self.discriminator_losses` when line 71 runs, registered by
`setup_discriminators` (lines 137, 148-150, 156-161, 165-166). -/
def discriminator_losses_setup (cfg : Config) : List (String × Int) :=
  if cfg.use_discriminator then
    [("d_discriminators_loss", 0)]
    ++ (if cfg.use_feature_level then
          (List.range cfg.num_feature_discriminators).map
            (fun i => ("d_loss_discriminator_feature_" ++ toString i, 0))
          ++ (List.range cfg.num_feature_discriminators).map
            (fun i => ("d_loss_reg_discriminator_feature_" ++ toString i, 0))
        else [])
    ++ (if cfg.predict_normals then
          [("d_loss_discriminator_phong", 0), ("d_loss_discriminator_depth_phong", 0),
           ("d_loss_discriminator_normals", 0),
           ("d_loss_reg_discriminator_phong", 0), ("d_loss_reg_discriminator_depth_phong", 0),
           ("d_loss_reg_discriminator_normals", 0)]
        else [])
    ++ [("d_loss_discriminator_depth_img", 0), ("d_loss_reg_discriminator_depth_img", 0)]
  else []

/-- What `HailMary.__init__` records for the scheduler. -/
structure InitResult where
  optimizers : List OptSlot
  critic_idx : Nat
  discriminators_idx : Nat
  texture_generator_idx : Nat
  texture_critic_idx : Nat
  texture_discriminator_idx : Nat
  generator_losses : List (String × Int)
  discriminator_losses : List (String × Int)
  start : State
  deriving Repr, DecidableEq

/-- `HailMary.__init__` (lines 31-100) as seen by the scheduler.
`texGeneratorLosses` and `texDiscriminatorLosses` are the nested texture
generator's loss dictionaries at the time of the merge (their keys come from
`DepthNormModel`, outside the sources).  The merge at lines 70-71 is plain
`dict.update`.  The source performs no validation of any kind here: there is
no name-collision check and no check that at least one reference source
exists (`generated_source_id > 0`), so no error path exists and the result is
always `.ok`. -/
def hailMaryInit (cfg : Config)
    (texGeneratorLosses texDiscriminatorLosses : List (String × Int)) :
    Except StepErr InitResult :=
  .ok { optimizers := unwrapped_optimizers cfg
        critic_idx := critic_opt_idx cfg
        discriminators_idx := discriminators_opt_idx cfg
        texture_generator_idx := texture_generator_opt_idx cfg
        texture_critic_idx := texture_critic_opt_idx cfg
        texture_discriminator_idx := texture_discriminator_opt_idx cfg
        generator_losses := dictUpdate (generator_losses_setup cfg) texGeneratorLosses
        discriminator_losses :=
          dictUpdate (discriminator_losses_setup cfg) texDiscriminatorLosses
        start := initState }

/-- Whether construction succeeded. -/
def initSucceeds (cfg : Config)
    (texGeneratorLosses texDiscriminatorLosses : List (String × Int)) : Bool :=
  match hailMaryInit cfg texGeneratorLosses texDiscriminatorLosses with
  | .ok _ => true
  | .error _ => false

/-! ## Prediction cache (`get_discriminator_critic_inputs`, lines 428-453) -/

/-- Which encoder produced a cached prediction: the adaptable generator
encoder (`self.generator`, line 246) or the frozen baseline encoder
(`self.depth_model.encoder`, line 248). -/
inductive EncoderChoice where
  | adaptable
  | frozenBaseline
  deriving Repr, DecidableEq

/-- The encoder selected by `get_predictions` for a given value of its
`generator` argument (lines 245-248). -/
def get_predictions (generator : Bool) : EncoderChoice :=
  if generator then .adaptable else .frozenBaseline

/-- One cached `DiscriminatorCriticInputs` record (lines 21-27, 436-452):
which encoder ran, that the whole computation sat inside `torch.no_grad()`
(line 435), and the `.detach()` flags applied to every stored tensor
(lines 444-446, 451-452). -/
structure DiscriminatorCriticInputs where
  usedEncoder : EncoderChoice
  noGradContext : Bool
  encoder_outs_detached : Bool
  depth_detached : Bool
  normals_detached : Bool
  phong_detached : Bool
  calculated_phong_detached : Bool
  deriving Repr, DecidableEq

/-- `get_discriminator_critic_inputs` (lines 428-453): for every source id in
the batch, run the predictor with
`generator = (source_id == self.generated_source_id)` (line 441) under
`torch.no_grad()`, detaching every stored output. -/
def get_discriminator_critic_inputs (generated_source_id : Nat)
    (batch : List Nat) : List (Nat × DiscriminatorCriticInputs) :=
  batch.map (fun source_id =>
    (source_id,
     { usedEncoder := get_predictions (source_id == generated_source_id)
       noGradContext := true
       encoder_outs_detached := true
       depth_detached := true
       normals_detached := true
       phong_detached := true
       calculated_phong_detached := true }))

/-! ## Helper lemmas -/

theorem lookup_cons {α β : Type} [BEq α] (a : α) (b : β) (tl : List (α × β)) (k : α) :
    ((a, b) :: tl).lookup k = if k == a then some b else tl.lookup k := by
  cases h : k == a <;> simp [List.lookup, h]

theorem lookup_append_left {α β : Type} [BEq α] [LawfulBEq α] {xs : List (α × β)}
    (ys : List (α × β)) {k : α} {v : β} (h : xs.lookup k = some v) :
    (xs ++ ys).lookup k = some v := by
  induction xs with
  | nil => simp [List.lookup] at h
  | cons hd tl ih =>
    rcases hd with ⟨a, b⟩
    rw [lookup_cons] at h
    rw [show ((a, b) :: tl) ++ ys = (a, b) :: (tl ++ ys) from rfl, lookup_cons]
    by_cases hka : k = a
    · subst hka
      simpa using h
    · simp only [beq_iff_eq, hka, if_false] at h ⊢
      exact ih h

theorem lookup_append_none {α β : Type} [BEq α] [LawfulBEq α] {xs : List (α × β)}
    (ys : List (α × β)) {k : α} (h : xs.lookup k = none) :
    (xs ++ ys).lookup k = ys.lookup k := by
  induction xs with
  | nil => simp
  | cons hd tl ih =>
    rcases hd with ⟨a, b⟩
    rw [lookup_cons] at h
    rw [show ((a, b) :: tl) ++ ys = (a, b) :: (tl ++ ys) from rfl, lookup_cons]
    by_cases hka : k = a
    · subst hka
      simp at h
    · simp only [beq_iff_eq, hka, if_false] at h ⊢
      exact ih h

theorem lookup_map_override {α β : Type} [BEq α] [LawfulBEq α]
    (base : List (α × β)) (upd : List (α × β)) {k : α} {w v : β}
    (hb : base.lookup k = some w) (hu : upd.lookup k = some v) :
    (base.map (fun kv => (kv.1, (upd.lookup kv.1).getD kv.2))).lookup k = some v := by
  induction base with
  | nil => simp [List.lookup] at hb
  | cons hd tl ih =>
    rcases hd with ⟨a, b⟩
    rw [lookup_cons] at hb
    rw [List.map_cons]
    by_cases hka : k = a
    · subst hka
      simp [lookup_cons, hu]
    · simp only [beq_iff_eq, hka, if_false] at hb
      simp only [lookup_cons, beq_iff_eq, hka, if_false]
      exact ih hb

/-- Key sets are preserved by the value override. -/
theorem lookup_map_override_none {α β : Type} [BEq α] [LawfulBEq α]
    (base : List (α × β)) (upd : List (α × β)) {k : α}
    (hb : base.lookup k = none) :
    (base.map (fun kv => (kv.1, (upd.lookup kv.1).getD kv.2))).lookup k = none := by
  induction base with
  | nil => simp [List.lookup]
  | cons hd tl ih =>
    rcases hd with ⟨a, b⟩
    rw [lookup_cons] at hb
    rw [List.map_cons]
    by_cases hka : k = a
    · subst hka
      simp at hb
    · simp only [beq_iff_eq, hka, if_false] at hb
      simp only [lookup_cons, beq_iff_eq, hka, if_false]
      exact ih hb

theorem lookup_filter_not_in_base {α β : Type} [BEq α] [LawfulBEq α]
    (base : List (α × β)) {upd : List (α × β)} {k : α} {v : β}
    (hu : upd.lookup k = some v) (hb : base.lookup k = none) :
    (upd.filter (fun kv => (base.lookup kv.1).isNone)).lookup k = some v := by
  induction upd with
  | nil => simp [List.lookup] at hu
  | cons hd tl ih =>
    rcases hd with ⟨a, b⟩
    rw [lookup_cons] at hu
    rw [List.filter_cons]
    by_cases hka : k = a
    · subst hka
      simp only [beq_self_eq_true, if_pos] at hu
      simp [hb, lookup_cons]
      simpa using hu
    · simp only [beq_iff_eq, hka, if_false] at hu
      have htl := ih hu
      cases hkeep : (base.lookup (a, b).1).isNone with
      | true =>
        rw [if_pos rfl]
        rw [lookup_cons]
        simpa [hka] using htl
      | false =>
        rw [if_neg Bool.false_ne_true]
        exact htl

/-- The Python `dict.update` merge: a key present in the updating dictionary
always ends up with the updating dictionary's value, silently replacing any
colliding entry of the base dictionary. -/
theorem dictUpdate_lookup {α β : Type} [BEq α] [LawfulBEq α]
    (base upd : List (α × β)) {k : α} {v : β} (hu : upd.lookup k = some v) :
    (dictUpdate base upd).lookup k = some v := by
  rw [dictUpdate]
  cases hb : base.lookup k with
  | some w => exact lookup_append_left _ (lookup_map_override base upd hb hu)
  | none =>
    rw [lookup_append_none _ (lookup_map_override_none base upd hb)]
    exact lookup_filter_not_in_base base hu hb

/-- `(n + 1) % N` in terms of `n % N`, for a positive modulus. -/
theorem succ_mod (n N : Nat) (h : 0 < N) :
    (n + 1) % N = if n % N + 1 = N then 0 else n % N + 1 := by
  have hlt : n % N < N := Nat.mod_lt _ h
  have h1 : (n + 1) % N = (n % N + 1) % N := by
    conv_lhs => rw [← Nat.mod_add_div n N]
    rw [Nat.add_right_comm, Nat.add_mul_mod_self_left]
  by_cases hc : n % N + 1 = N
  · rw [h1, if_pos hc, hc, Nat.mod_self]
  · rw [h1, Nat.mod_eq_of_lt (by omega), if_neg hc]

theorem succ_mod_eq_zero_iff (n N : Nat) (h : 0 < N) :
    (n + 1) % N = 0 ↔ n % N + 1 = N := by
  rw [succ_mod n N h]
  split <;> omega

/-! ## Characterizations of the step functions -/

theorem gen_step_ok (cfg : Config) (s : State) (hd : numDiscriminators cfg ≠ 0)
    (hc : cfg.use_critic = false)
    (hp : cfg.use_discriminator = true → cfg.predict_normals = true) :
    generator_train_step cfg s = .ok (genCore cfg s) := by
  have h0 : (numDiscriminators cfg == 0) = false := by simpa using hd
  by_cases hud : cfg.use_discriminator = true
  · have hpn := hp hud
    simp [generator_train_step, h0, hc, hud, hpn]
  · have hud' : cfg.use_discriminator = false := by simpa using hud
    simp [generator_train_step, h0, hc, hud']

/-- Inversion: a generator step only returns normally with the critic disabled
and the bank lookups in place, and then it computes `genCore`. -/
theorem gen_step_ok_inv (cfg : Config) (s : State) (r : State × Effects)
    (h : generator_train_step cfg s = .ok r) :
    r = genCore cfg s ∧ cfg.use_critic = false := by
  rw [generator_train_step] at h
  split at h
  · simp at h
  · split at h
    · simp at h
    · split at h
      · simp at h
      · next hc _ =>
        refine ⟨?_, ?_⟩
        · injection h with h
          exact h.symm
        · simpa using hc

theorem disc_step_ok (cfg : Config) (s : State)
    (hw : cfg.wasserstein_critic_updates ≠ 0) (hr : cfg.generated_source_id ≠ 0)
    (hc : cfg.use_critic = false)
    (hp : cfg.use_discriminator = true → cfg.predict_normals = true) :
    discriminator_critic_train_step cfg s = .ok (discCore cfg s) := by
  have h2 : (cfg.generated_source_id == 0) = false := by simpa using hr
  by_cases hud : cfg.use_discriminator = true
  · have hpn := hp hud
    simp [discriminator_critic_train_step, hw, h2, hc, hud, hpn]
  · have hud' : cfg.use_discriminator = false := by simpa using hud
    simp [discriminator_critic_train_step, hw, h2, hc, hud']

/-- Inversion: a discriminator/critic step only returns normally with the
critic disabled (line 381 aborts every critic-enabled call), and then it
computes `discCore`. -/
theorem disc_step_ok_inv (cfg : Config) (s : State) (r : State × Effects)
    (h : discriminator_critic_train_step cfg s = .ok r) :
    r = discCore cfg s ∧ cfg.use_critic = false := by
  rw [discriminator_critic_train_step] at h
  split at h
  · simp at h
  · split at h
    · simp at h
    · split at h
      · simp at h
      · split at h
        · simp at h
        · split at h
          · simp at h
          · split at h
            · simp at h
            · next hc =>
              refine ⟨?_, ?_⟩
              · injection h with h
                exact h.symm
              · simpa using hc

/-- Every critic-enabled `DISC`-phase step aborts: with `predict_normals` the
unregistered `d_critics_loss` accumulation of line 381 raises, without it the
missing `phong` head raises first (line 493 or 537). -/
theorem disc_step_critic_err (cfg : Config) (s : State)
    (hw : cfg.wasserstein_critic_updates ≠ 0) (hr : cfg.generated_source_id ≠ 0)
    (hc : cfg.use_critic = true) :
    discriminator_critic_train_step cfg s
      = .error (.keyError (if cfg.predict_normals then "d_critics_loss" else "phong")) := by
  have h2 : (cfg.generated_source_id == 0) = false := by simpa using hr
  rw [discriminator_critic_train_step, if_neg hw]
  by_cases hp : cfg.predict_normals = true
  · simp [h2, hc, hp]
  · have hp' : cfg.predict_normals = false := by simpa using hp
    by_cases hud : cfg.use_discriminator = true <;>
      by_cases hf : (s.critic_global_step % cfg.wasserstein_critic_updates == 0) = true <;>
      simp [h2, hc, hp', hud, hf]

theorem training_step_disc (cfg : Config) (s : State)
    (hphase : s.generator_training = false)
    (hw : cfg.wasserstein_critic_updates ≠ 0) (hr : cfg.generated_source_id ≠ 0)
    (hc : cfg.use_critic = false)
    (hp : cfg.use_discriminator = true → cfg.predict_normals = true) :
    training_step cfg s = .ok (postStep false (discCore cfg (preStep cfg s))) := by
  rw [training_step, hphase, if_neg Bool.false_ne_true,
      disc_step_ok cfg (preStep cfg s) hw hr hc hp]
  rfl

theorem training_step_gen (cfg : Config) (s : State)
    (hphase : s.generator_training = true) (hd : numDiscriminators cfg ≠ 0)
    (hc : cfg.use_critic = false)
    (hp : cfg.use_discriminator = true → cfg.predict_normals = true) :
    training_step cfg s = .ok (postStep true (genCore cfg (preStep cfg s))) := by
  rw [training_step, hphase, if_pos rfl, gen_step_ok cfg (preStep cfg s) hd hc hp]
  rfl

/-! ## Concrete configurations used by the witnesses and counterexamples -/

/-- The §8 end-to-end scenario: 2 reference sources, generated source id 2,
accumulation window 1, critic cadence 1, discriminator and critic enabled
(minimal head set: no feature-level heads, no normals prediction). -/
def cfgScenario : Config where
  use_discriminator := true
  use_critic := true
  use_feature_level := false
  predict_normals := false
  tex_use_discriminator := false
  tex_use_critic := false
  accumulate_grad_batches := 1
  wasserstein_critic_updates := 1
  generated_source_id := 2
  num_feature_discriminators := 0

/-- A configuration the training step can actually execute: discriminator
enabled with normals prediction (4 heads: `phong`, `depth_phong`, `normals`,
`depth_image`), critic disabled. -/
def cfgNormals : Config where
  use_discriminator := true
  use_critic := false
  use_feature_level := false
  predict_normals := true
  tex_use_discriminator := false
  tex_use_critic := false
  accumulate_grad_batches := 1
  wasserstein_critic_updates := 1
  generated_source_id := 1
  num_feature_discriminators := 0

/-- Critic enabled with normals prediction and no discriminator: the `DISC`
step survives `_critics` but dies at line 381's `d_critics_loss` access. -/
def cfgCriticNormals : Config where
  use_discriminator := false
  use_critic := true
  use_feature_level := false
  predict_normals := true
  tex_use_discriminator := false
  tex_use_critic := false
  accumulate_grad_batches := 1
  wasserstein_critic_updates := 1
  generated_source_id := 1
  num_feature_discriminators := 0

/-- Every optional optimizer group enabled. -/
def cfgAllOn : Config where
  use_discriminator := true
  use_critic := true
  use_feature_level := true
  predict_normals := true
  tex_use_discriminator := true
  tex_use_critic := true
  accumulate_grad_batches := 1
  wasserstein_critic_updates := 1
  generated_source_id := 2
  num_feature_discriminators := 1

/-- Every optional component disabled. -/
def cfgMinimal : Config where
  use_discriminator := false
  use_critic := false
  use_feature_level := false
  predict_normals := false
  tex_use_discriminator := false
  tex_use_critic := false
  accumulate_grad_batches := 1
  wasserstein_critic_updates := 1
  generated_source_id := 1
  num_feature_discriminators := 0

/-- Zero reference sources: the generated source id is 0. -/
def cfgNoRefs : Config where
  use_discriminator := true
  use_critic := true
  use_feature_level := false
  predict_normals := false
  tex_use_discriminator := false
  tex_use_critic := false
  accumulate_grad_batches := 1
  wasserstein_critic_updates := 1
  generated_source_id := 0
  num_feature_discriminators := 0

/-- A state in the `GEN` phase about to complete its accumulation window. -/
def genStart : State := { initState with generator_training := true }

/-! ## Per-call and per-run counter lemmas -/

/-- Lines 268-272 and 280 of `training_step` run before the phase dispatch
and after it, respectively, so on every call that returns (whatever the phase
and configuration), the accumulation counter rolls over at the window size,
the one-shot flag is cleared at the end, and the full-batch observation of the
call is determined by the entry counter. -/
theorem step_counters (cfg : Config) (s s' : State) (eff : Effects)
    (hok : training_step cfg s = .ok (s', eff)) :
    s'.batches_accumulated =
      (if s.batches_accumulated + 1 = cfg.accumulate_grad_batches then 0
       else s.batches_accumulated + 1) ∧
    s'.full_batch = false ∧
    eff.fullDuring =
      (if s.batches_accumulated + 1 = cfg.accumulate_grad_batches then true
       else s.full_batch) := by
  rw [training_step] at hok
  cases hphase : s.generator_training with
  | true =>
    rw [hphase, if_pos rfl] at hok
    cases hg : generator_train_step cfg (preStep cfg s) with
    | error e =>
      rw [hg] at hok
      exact absurd hok (by simp [Except.map])
    | ok r =>
      obtain ⟨hr, -⟩ := gen_step_ok_inv _ _ _ hg
      subst hr
      rw [hg] at hok
      rw [show Except.map (postStep true) (Except.ok (genCore cfg (preStep cfg s)))
            = Except.ok (postStep true (genCore cfg (preStep cfg s))) from rfl,
          Except.ok.injEq, Prod.ext_iff] at hok
      obtain ⟨hs, he⟩ := hok
      subst hs
      subst he
      refine ⟨?_, ?_, ?_⟩ <;>
        (by_cases hN : s.batches_accumulated + 1 = cfg.accumulate_grad_batches <;>
          by_cases hf : s.full_batch <;>
          simp [postStep, genCore, preStep, hN, hf])
  | false =>
    rw [hphase, if_neg Bool.false_ne_true] at hok
    cases hg : discriminator_critic_train_step cfg (preStep cfg s) with
    | error e =>
      rw [hg] at hok
      exact absurd hok (by simp [Except.map])
    | ok r =>
      obtain ⟨hr, -⟩ := disc_step_ok_inv _ _ _ hg
      subst hr
      rw [hg] at hok
      rw [show Except.map (postStep false) (Except.ok (discCore cfg (preStep cfg s)))
            = Except.ok (postStep false (discCore cfg (preStep cfg s))) from rfl,
          Except.ok.injEq, Prod.ext_iff] at hok
      obtain ⟨hs, he⟩ := hok
      subst hs
      subst he
      refine ⟨?_, ?_, ?_⟩ <;>
        (by_cases hN : s.batches_accumulated + 1 = cfg.accumulate_grad_batches <;>
          by_cases hf : s.full_batch <;>
          simp [postStep, discCore, preStep, hN, hf])

theorem runAll_succ (cfg : Config) (n : Nat) (s : State) :
    runAll cfg (n + 1) s =
      match runAll cfg n s with
      | .error e => .error e
      | .ok (s', l) =>
        match training_step cfg s' with
        | .error e => .error e
        | .ok (s'', eff) => .ok (s'', l ++ [eff]) := by
  induction n generalizing s with
  | zero =>
    cases h : training_step cfg s with
    | error e => simp [runAll, h]
    | ok pr => rcases pr with ⟨s1, eff⟩; simp [runAll, h, Except.map]
  | succ m ih =>
    cases h : training_step cfg s with
    | error e => simp [runAll, h]
    | ok pr =>
      rcases pr with ⟨s1, eff⟩
      rw [show runAll cfg (m + 1 + 1) s
            = match training_step cfg s with
              | .error e => .error e
              | .ok (s', e1) => Except.map (fun r => (r.1, e1 :: r.2)) (runAll cfg (m + 1) s1)
          from by rw [runAll]; cases h' : training_step cfg s <;> simp_all]
      rw [h, ih s1]
      rw [show runAll cfg (m + 1) s
            = match training_step cfg s with
              | .error e => .error e
              | .ok (s', e1) => Except.map (fun r => (r.1, e1 :: r.2)) (runAll cfg m s1)
          from by rw [runAll]; cases h' : training_step cfg s <;> simp_all]
      rw [h]
      cases h2 : runAll cfg m s1 with
      | error e => simp [Except.map]
      | ok pr2 =>
        rcases pr2 with ⟨s2, l2⟩
        simp only [Except.map]
        cases h3 : training_step cfg s2 with
        | error e => simp
        | ok pr3 => rcases pr3 with ⟨s3, e3⟩; simp

/-- Any run from the initial state that survives `n` calls — no configuration
hypotheses, only the window size being positive — leaves the accumulation
counter at `n mod N`, the one-shot flag clear, and the recorded per-call
full-batch flags at the exactly-every-Nth pattern. -/
theorem run_counters (cfg : Config) (hN : 0 < cfg.accumulate_grad_batches) :
    ∀ (n : Nat) (s : State) (l : List Effects),
      runAll cfg n initState = .ok (s, l) →
      s.batches_accumulated = n % cfg.accumulate_grad_batches ∧
      s.full_batch = false ∧
      l.map Effects.fullDuring =
        (List.range n).map (fun k => decide ((k + 1) % cfg.accumulate_grad_batches = 0)) := by
  intro n
  induction n with
  | zero =>
    intro s l h
    rw [show runAll cfg 0 initState = .ok (initState, []) from rfl,
        Except.ok.injEq] at h
    injection h with h1 h2
    subst h1
    subst h2
    simp [initState]
  | succ m ih =>
    intro s l h
    rw [runAll_succ] at h
    cases hprev : runAll cfg m initState with
    | error e => rw [hprev] at h; simp at h
    | ok pr =>
      rcases pr with ⟨s0, l0⟩
      rw [hprev] at h
      dsimp only at h
      cases hstep : training_step cfg s0 with
      | error e => rw [hstep] at h; simp at h
      | ok pr1 =>
        rcases pr1 with ⟨s1, eff⟩
        rw [hstep] at h
        dsimp only at h
        rw [Except.ok.injEq, Prod.mk.injEq] at h
        obtain ⟨h1, h2⟩ := h
        subst h1
        subst h2
        obtain ⟨hba0, hfb0, hl0⟩ := ih s0 l0 hprev
        obtain ⟨hba1, hfb1, heff⟩ := step_counters cfg s0 s1 eff hstep
        refine ⟨?_, hfb1, ?_⟩
        · rw [hba1, hba0, succ_mod m cfg.accumulate_grad_batches hN]
        · rw [List.map_append, hl0, List.range_succ, List.map_append]
          rw [show (List.map Effects.fullDuring [eff]) = [eff.fullDuring] from rfl]
          rw [heff, hba0, hfb0]
          rw [show (List.map (fun k => decide ((k + 1) % cfg.accumulate_grad_batches = 0)) [m])
                = [decide ((m + 1) % cfg.accumulate_grad_batches = 0)] from rfl]
          rw [succ_mod m cfg.accumulate_grad_batches hN]
          by_cases hc : m % cfg.accumulate_grad_batches + 1 = cfg.accumulate_grad_batches <;>
            simp [hc]

/-! ## Concrete run results used by the witnesses and counterexamples -/

/-- Per-call effects of a `DISC`-phase full-batch call of `cfgNormals` from
the initial state: discriminator optimizer stepped and
its loss log flushed; no critic is enabled, so nothing critic-related. -/
def discNormalsEffects : Effects where
  phaseDuring := false
  fullDuring := true
  stepped := [OptSlot.discOpt]
  flushedGen := false
  flushedDisc := true
  flushedCritic := false
  zeroedAll := true

/-- Post-call state of the throttled `GEN`-phase full-batch call that follows
(`(-1 + 2) mod 4 = 1`): the step counter advanced, the phase flipped to
`DISC`, and the gradients were zeroed without any optimizer step. -/
def throttledState : State where
  generator_global_step := 0
  critic_global_step := 0
  total_train_step_count := 0
  batches_accumulated := 0
  full_batch := false
  generator_training := false
  grads := 0

/-- Per-call effects of that throttled call: nothing stepped, nothing flushed,
whole-model `zero_grad` ran. -/
def throttledEffects : Effects where
  phaseDuring := true
  fullDuring := true
  stepped := []
  flushedGen := false
  flushedDisc := false
  flushedCritic := false
  zeroedAll := true

/-- Final state of three `cfgNormals` calls from the initial state
(`DISC`, throttled `GEN`, `DISC`). -/
def c4State : State where
  generator_global_step := 0
  critic_global_step := 0
  total_train_step_count := 2
  batches_accumulated := 0
  full_batch := false
  generator_training := true
  grads := 0

/-! ## Claim theorems -/

/-- C1, counterexample: on a `GEN`-phase full-batch call whose throttle
remainder is nonzero the phase nevertheless changes to `DISC` — line 343 sets
`_generator_training = False` before the throttle test of line 344, which only
suppresses the optimizer step and the loss flush.  Two calls of `cfgNormals`
(a configuration the step can execute: 4 discriminator heads, critic
disabled): the first, in `DISC`, flips to `GEN`; the second, in `GEN` with
entry step count `-1`, tests remainder `(-1 + 2) mod 4 = 1 ≠ 0`, steps and
flushes nothing, yet leaves the phase at `DISC`, refuting the claim's final
clause. -/
theorem C1_counterexample :
    (initState.generator_global_step + 2) % (numDiscriminators cfgNormals : Int) ≠ 0 ∧
    (runEffects cfgNormals 2 initState).map
        (fun l => l.map (fun e => (e.phaseDuring, e.stepped, e.flushedGen)))
      = .ok [(false, [OptSlot.discOpt], false), (true, [], false)] ∧
    (runStates cfgNormals 2 initState).map (fun l => l.map State.generator_training)
      = .ok [true, false] :=
  ⟨by decide, rfl, rfl⟩

/-- C1, amended: on every `GEN`-phase call that completes the accumulation
window — in a configuration the step can execute: at least one discriminator
head, normals predicted, critic disabled — `generator_global_step` advances
and the phase is set to `DISC` unconditionally; the step-and-clear of the
generator and texture-generator-generator optimizers and the flush of the
generator loss log happen exactly when the incremented step count plus one is
divisible by the number of discriminator heads, and the whole-model gradients
are zeroed either way. -/
theorem C1_amended (cfg : Config) (s : State)
    (hd : 0 < numDiscriminators cfg)
    (hc : cfg.use_critic = false)
    (hpn : cfg.predict_normals = true)
    (hphase : s.generator_training = true)
    (hN : s.batches_accumulated + 1 = cfg.accumulate_grad_batches) :
    training_step cfg s = .ok
      ({ s with total_train_step_count := s.total_train_step_count + 1,
                batches_accumulated := 0,
                full_batch := false,
                generator_global_step := s.generator_global_step + 1,
                generator_training := false,
                grads := 0 },
       { noEffects with
           phaseDuring := true, fullDuring := true, zeroedAll := true,
           stepped :=
             if (s.generator_global_step + 2) % (numDiscriminators cfg : Int) = 0 then
               [OptSlot.genOpt, OptSlot.texGenOpt] else [],
           flushedGen :=
             decide ((s.generator_global_step + 2) % (numDiscriminators cfg : Int) = 0) }) := by
  rw [training_step_gen cfg s hphase (by omega) hc (fun _ => hpn)]
  by_cases hm : (s.generator_global_step + 2) % (numDiscriminators cfg : Int) = 0 <;>
    simp [preStep, genCore, postStep, noEffects, hN, hm]

/-- C1, witness for the amended theorem at a concrete executable input. -/
theorem C1_witness :
    0 < numDiscriminators cfgNormals ∧
    cfgNormals.use_critic = false ∧
    cfgNormals.predict_normals = true ∧
    genStart.generator_training = true ∧
    genStart.batches_accumulated + 1 = cfgNormals.accumulate_grad_batches ∧
    training_step cfgNormals genStart = .ok
      ({ genStart with
           total_train_step_count := genStart.total_train_step_count + 1,
           batches_accumulated := 0,
           full_batch := false,
           generator_global_step := genStart.generator_global_step + 1,
           generator_training := false,
           grads := 0 },
       { noEffects with
           phaseDuring := true, fullDuring := true, zeroedAll := true,
           stepped :=
             if (genStart.generator_global_step + 2) % (numDiscriminators cfgNormals : Int) = 0 then
               [OptSlot.genOpt, OptSlot.texGenOpt] else [],
           flushedGen :=
             decide ((genStart.generator_global_step + 2) % (numDiscriminators cfgNormals : Int) = 0) }) :=
  ⟨by decide, rfl, rfl, rfl, by decide,
    C1_amended cfgNormals genStart (by decide) rfl rfl rfl (by decide)⟩

/-- C2: with `use_discriminator = false` the discriminator dict is empty, and
a `GEN`-phase full-batch call evaluates
`(generator_global_step + 1) % len(self.discriminators)` with a zero divisor:
Python raises `ZeroDivisionError` instead of treating the throttle as always
eligible.  The crash is reachable only with the critic also disabled (a
critic-enabled `GEN` call dies earlier, at line 552's unregistered key):
from the initial state of the all-disabled configuration, call 1 (`DISC`)
flips the phase and call 2 (`GEN`, full batch) divides by zero. -/
theorem C2_division_by_zero :
    numDiscriminators cfgMinimal = 0 ∧
    cfgMinimal.use_critic = false ∧
    iterateStep cfgMinimal 2 initState = .error .divisionByZero :=
  ⟨rfl, rfl, rfl⟩

/-- C3: the cadence-gated `DISC → GEN` transition the claim describes never
executes with the critic enabled: line 381 accumulates the critic loss into
`discriminator_losses['d_critics_loss']`, but that key is registered only in
`critic_losses` (line 188), so every critic-enabled `DISC` call raises
`KeyError` before the flush/flip code of lines 411-426 (with
`predict_normals` false it dies even earlier, at the missing `phong` head,
line 493/537).  At the §8 scenario configuration the claim's transition
conditions hold — full batch, cadence 1 marks the last mini-batch — yet the
first call aborts with `KeyError 'phong'`; with normals predicted and no
discriminator it aborts at `KeyError 'd_critics_loss'`.  The general fact
`disc_step_critic_err` shows this for every critic-enabled configuration. -/
theorem C3_critic_call_aborts :
    cfgScenario.use_critic = true ∧
    (initState.critic_global_step + 1) % cfgScenario.wasserstein_critic_updates = 0 ∧
    initState.batches_accumulated + 1 = cfgScenario.accumulate_grad_batches ∧
    initState.generator_training = false ∧
    training_step cfgScenario initState = .error (.keyError "phong") ∧
    training_step cfgCriticNormals initState = .error (.keyError "d_critics_loss") :=
  ⟨rfl, by decide, by decide, rfl, rfl, rfl⟩

/-- C4: any run from the initial state that survives `n` calls — under no
configuration hypothesis beyond the window size `N ≥ 1` the claim itself
assumes — has `batches_accumulated = n mod N` (so the counter never exceeds
the window between calls), the one-shot `full_batch` flag clear after every
call, and the flag set during exactly the calls whose 1-based index is a
multiple of `N`.  A call that raises ends the run; no call after a failure
exists in the program. -/
theorem C4_accumulation (cfg : Config) (n : Nat) (s : State) (l : List Effects)
    (hN : 0 < cfg.accumulate_grad_batches)
    (hrun : runAll cfg n initState = .ok (s, l)) :
    s.batches_accumulated = n % cfg.accumulate_grad_batches ∧
    s.batches_accumulated < cfg.accumulate_grad_batches ∧
    s.full_batch = false ∧
    l.map Effects.fullDuring =
      (List.range n).map (fun k => decide ((k + 1) % cfg.accumulate_grad_batches = 0)) := by
  obtain ⟨hba, hfb, hl⟩ := run_counters cfg hN n s l hrun
  exact ⟨hba, by rw [hba]; exact Nat.mod_lt _ hN, hfb, hl⟩

/-- C4, witness: three calls of the executable `cfgNormals` configuration
(window 1: every call is a full batch). -/
theorem C4_witness :
    0 < cfgNormals.accumulate_grad_batches ∧
    runAll cfgNormals 3 initState
      = .ok (c4State, [discNormalsEffects, throttledEffects, discNormalsEffects]) ∧
    (c4State.batches_accumulated = 3 % cfgNormals.accumulate_grad_batches ∧
     c4State.batches_accumulated < cfgNormals.accumulate_grad_batches ∧
     c4State.full_batch = false ∧
     ([discNormalsEffects, throttledEffects, discNormalsEffects].map Effects.fullDuring) =
       (List.range 3).map (fun k => decide ((k + 1) % cfgNormals.accumulate_grad_batches = 0))) :=
  ⟨by decide, rfl,
    C4_accumulation cfgNormals 3 c4State
      [discNormalsEffects, throttledEffects, discNormalsEffects] (by decide) rfl⟩

/-- C5: the §8 end-to-end scenario does not run.  Its first scheduler call is
a `DISC`-phase call with the discriminator enabled and `predict_normals`
false, so `_discriminators` dereferences the missing bank entry
`discriminators['phong']` (line 493) and raises `KeyError` (the critic side
would also die: the missing `critics['phong']` at line 537 and the
unregistered `d_critics_loss` at line 381).  The phase sequence
`DISC, GEN, DISC, GEN` the claim expects is never produced; the 4-call run
aborts on call 1. -/
theorem C5_scenario_aborts :
    training_step cfgScenario initState = .error (.keyError "phong") ∧
    runAll cfgScenario 4 initState = .error (.keyError "phong") :=
  ⟨rfl, rfl⟩

/-- C6, counterexample: with every component enabled the optimizer list the
source builds is generator, **critic**, **discriminator**, texture-generator,
texture-critic, texture-discriminator — `setup_critics` runs before
`setup_discriminators` (lines 65-68) — which differs from the
generator-discriminators-critics order the claim states. -/
theorem C6_counterexample :
    unwrapped_optimizers cfgAllOn
      = [OptSlot.genOpt, OptSlot.criticOpt, OptSlot.discOpt,
         OptSlot.texGenOpt, OptSlot.texCriticOpt, OptSlot.texDiscOpt] ∧
    spec_dependency_order cfgAllOn
      = [OptSlot.genOpt, OptSlot.discOpt, OptSlot.criticOpt,
         OptSlot.texGenOpt, OptSlot.texCriticOpt, OptSlot.texDiscOpt] ∧
    unwrapped_optimizers cfgAllOn ≠ spec_dependency_order cfgAllOn :=
  ⟨rfl, rfl, by decide⟩

/-- C6, amended: the optimizer list is built in the fixed order generator →
[critics] → [discriminators] → texture-generator-generator →
[texture-generator-critic] → [texture-generator-discriminator]; disabled
components consume no slot, later recorded indices shift down accordingly, and
every recorded named index that is used refers to the optimizer of its
component. -/
theorem C6_amended (cfg : Config) :
    (unwrapped_optimizers cfg)[0]? = some OptSlot.genOpt ∧
    (cfg.use_critic = true →
      (unwrapped_optimizers cfg)[critic_opt_idx cfg]? = some OptSlot.criticOpt) ∧
    (cfg.use_discriminator = true →
      (unwrapped_optimizers cfg)[discriminators_opt_idx cfg]? = some OptSlot.discOpt) ∧
    (unwrapped_optimizers cfg)[texture_generator_opt_idx cfg]? = some OptSlot.texGenOpt ∧
    (cfg.tex_use_critic = true →
      (unwrapped_optimizers cfg)[texture_critic_opt_idx cfg]? = some OptSlot.texCriticOpt) ∧
    (cfg.tex_use_discriminator = true →
      (unwrapped_optimizers cfg)[texture_discriminator_opt_idx cfg]?
        = some OptSlot.texDiscOpt) := by
  rcases cfg with ⟨ud, uc, ufl, pn, tud, tuc, agb, wcu, gid, nfd⟩
  cases ud <;> cases uc <;> cases tud <;> cases tuc <;>
    simp [unwrapped_optimizers, outer_optimizers, texture_configure_optimizers,
          critic_opt_idx, discriminators_opt_idx, texture_generator_opt_idx,
          texture_critic_opt_idx, texture_discriminator_opt_idx]

/-- C6, witness for the amended theorem with every component enabled. -/
theorem C6_witness :
    (unwrapped_optimizers cfgAllOn)[0]? = some OptSlot.genOpt ∧
    (cfgAllOn.use_critic = true →
      (unwrapped_optimizers cfgAllOn)[critic_opt_idx cfgAllOn]? = some OptSlot.criticOpt) ∧
    (cfgAllOn.use_discriminator = true →
      (unwrapped_optimizers cfgAllOn)[discriminators_opt_idx cfgAllOn]?
        = some OptSlot.discOpt) ∧
    (unwrapped_optimizers cfgAllOn)[texture_generator_opt_idx cfgAllOn]?
      = some OptSlot.texGenOpt ∧
    (cfgAllOn.tex_use_critic = true →
      (unwrapped_optimizers cfgAllOn)[texture_critic_opt_idx cfgAllOn]?
        = some OptSlot.texCriticOpt) ∧
    (cfgAllOn.tex_use_discriminator = true →
      (unwrapped_optimizers cfgAllOn)[texture_discriminator_opt_idx cfgAllOn]?
        = some OptSlot.texDiscOpt) :=
  C6_amended cfgAllOn

/-- C7, counterexample: the merge of the nested texture-generator loss
namespace into the outer one (lines 70-71) is plain `dict.update`: when the
nested dictionary also contains the key `g_loss` (outer value 0), construction
still succeeds and the merged dictionary silently holds the nested value 7 —
no setup-time error exists. -/
theorem C7_counterexample :
    (generator_losses_setup cfgMinimal).lookup "g_loss" = some 0 ∧
    initSucceeds cfgMinimal [("g_loss", 7)] [] = true ∧
    (hailMaryInit cfgMinimal [("g_loss", 7)] []).map
        (fun r => r.generator_losses.lookup "g_loss") = .ok (some 7) :=
  ⟨rfl, rfl, rfl⟩

/-- C7, amended: the name-union merge performs no collision check —
construction always succeeds, and every key of the nested dictionary ends up
in the merged namespace with the nested value, silently overwriting any
colliding outer entry. -/
theorem C7_amended (cfg : Config) (texG texD : List (String × Int))
    (k : String) (v : Int) (h : texG.lookup k = some v) :
    initSucceeds cfg texG texD = true ∧
    (hailMaryInit cfg texG texD).map (fun r => r.generator_losses.lookup k)
      = .ok (some v) := by
  refine ⟨rfl, ?_⟩
  show Except.ok ((dictUpdate (generator_losses_setup cfg) texG).lookup k) = _
  rw [dictUpdate_lookup _ _ h]

/-- C7, witness for the amended theorem at the colliding key `g_loss`. -/
theorem C7_witness :
    ([(("g_loss" : String), (7 : Int))].lookup "g_loss" = some 7) ∧
    initSucceeds cfgMinimal [("g_loss", 7)] [] = true ∧
    (hailMaryInit cfgMinimal [("g_loss", 7)] []).map
        (fun r => r.generator_losses.lookup "g_loss") = .ok (some 7) :=
  ⟨rfl, (C7_amended cfgMinimal [("g_loss", 7)] [] "g_loss" 7 rfl).1,
    (C7_amended cfgMinimal [("g_loss", 7)] [] "g_loss" 7 rfl).2⟩

/-- C8, counterexample: a configuration with zero reference sources
(`generated_source_id = 0`) is **not** rejected at setup — `__init__`
(lines 31-100) contains no such check and construction succeeds — and the very
first `DISC`-phase training step reaches the empty reference-tensor
concatenation, which raises at runtime. -/
theorem C8_counterexample :
    initSucceeds cfgNoRefs [] [] = true ∧
    training_step cfgNoRefs initState = .error .emptyConcat :=
  ⟨rfl, rfl⟩

/-- C8, amended: zero reference sources passes setup unchecked for every
configuration; with a discriminator enabled and a positive cadence, the
failure instead surfaces as the empty `torch.cat` in the discriminator/critic
step of the first training call. -/
theorem C8_amended (cfg : Config) (texG texD : List (String × Int))
    (h0 : cfg.generated_source_id = 0) (hd : cfg.use_discriminator = true)
    (hw : 0 < cfg.wasserstein_critic_updates) :
    initSucceeds cfg texG texD = true ∧
    training_step cfg initState = .error .emptyConcat := by
  have hw' : cfg.wasserstein_critic_updates ≠ 0 := by omega
  refine ⟨rfl, ?_⟩
  rw [training_step]
  rw [show initState.generator_training = false from rfl, if_neg Bool.false_ne_true]
  rw [discriminator_critic_train_step]
  rw [if_neg hw']
  rw [if_pos (by simp [preStep, initState, hd, h0])]
  rfl

/-- C8, witness for the amended theorem. -/
theorem C8_witness :
    cfgNoRefs.generated_source_id = 0 ∧
    cfgNoRefs.use_discriminator = true ∧
    0 < cfgNoRefs.wasserstein_critic_updates ∧
    (initSucceeds cfgNoRefs [] [] = true ∧
      training_step cfgNoRefs initState = .error .emptyConcat) :=
  ⟨rfl, rfl, by decide, C8_amended cfgNoRefs [] [] rfl rfl (by decide)⟩

/-- C9: every record of the per-step prediction cache is computed under the
no-gradient context with every stored tensor detached, and it uses the
adaptable generator encoder exactly when its source id is the generated
source id (every reference source uses the frozen baseline encoder). -/
theorem C9_prediction_cache (gid : Nat) (batch : List Nat) (sid : Nat)
    (rec : DiscriminatorCriticInputs)
    (h : (sid, rec) ∈ get_discriminator_critic_inputs gid batch) :
    rec.noGradContext = true ∧ rec.encoder_outs_detached = true ∧
    rec.depth_detached = true ∧ rec.normals_detached = true ∧
    rec.phong_detached = true ∧ rec.calculated_phong_detached = true ∧
    (rec.usedEncoder = EncoderChoice.adaptable ↔ sid = gid) := by
  simp only [get_discriminator_critic_inputs, List.mem_map] at h
  obtain ⟨a, ha, heq⟩ := h
  injection heq with h1 h2
  subst h1
  subst h2
  refine ⟨rfl, rfl, rfl, rfl, rfl, rfl, ?_⟩
  simp only [get_predictions]
  by_cases hg : a = gid
  · simp [hg]
  · simp [hg]

/-- The cache record produced for the generated source. -/
def cacheRecord : DiscriminatorCriticInputs where
  usedEncoder := EncoderChoice.adaptable
  noGradContext := true
  encoder_outs_detached := true
  depth_detached := true
  normals_detached := true
  phong_detached := true
  calculated_phong_detached := true

/-- C9, witness: source id 2 in the batch `[0, 1, 2]` with generated source
id 2 uses the adaptable encoder, everything detached. -/
theorem C9_witness :
    (2, cacheRecord) ∈ get_discriminator_critic_inputs 2 [0, 1, 2] ∧
    (cacheRecord.noGradContext = true ∧ cacheRecord.encoder_outs_detached = true ∧
    cacheRecord.depth_detached = true ∧ cacheRecord.normals_detached = true ∧
    cacheRecord.phong_detached = true ∧ cacheRecord.calculated_phong_detached = true ∧
    (cacheRecord.usedEncoder = EncoderChoice.adaptable ↔ 2 = 2)) :=
  ⟨by decide, C9_prediction_cache 2 [0, 1, 2] 2 cacheRecord (by decide)⟩

/-- C10: on every call that completes the accumulation window the whole-model
gradients are zeroed at the end (lines 278-279), including a `GEN`-phase call
whose throttle remainder is nonzero — there no optimizer steps and no
generator-loss flush happens, so the gradients accumulated over that window
are discarded rather than carried into the next one. -/
theorem C10_full_batch_zero_grad (cfg : Config) (s s' : State) (eff : Effects)
    (hfb : s.full_batch = false)
    (hN : s.batches_accumulated + 1 = cfg.accumulate_grad_batches)
    (hok : training_step cfg s = .ok (s', eff)) :
    s'.grads = 0 ∧ eff.zeroedAll = true ∧
    (s.generator_training = true →
      (s.generator_global_step + 2) % (numDiscriminators cfg : Int) ≠ 0 →
      eff.stepped = [] ∧ eff.flushedGen = false) := by
  rw [training_step] at hok
  cases hphase : s.generator_training with
  | true =>
    rw [hphase, if_pos rfl] at hok
    cases hg : generator_train_step cfg (preStep cfg s) with
    | error e =>
      rw [hg] at hok
      exact absurd hok (by simp [Except.map])
    | ok r =>
      obtain ⟨hr, -⟩ := gen_step_ok_inv _ _ _ hg
      subst hr
      rw [hg] at hok
      rw [show Except.map (postStep true) (Except.ok (genCore cfg (preStep cfg s)))
            = Except.ok (postStep true (genCore cfg (preStep cfg s))) from rfl,
          Except.ok.injEq, Prod.ext_iff] at hok
      obtain ⟨hs, he⟩ := hok
      subst hs
      subst he
      refine ⟨?_, ?_, ?_⟩
      · simp [postStep, genCore, preStep, hN]
      · simp [postStep, genCore, preStep, hN]
      · intro _ hm
        constructor <;> simp [postStep, genCore, preStep, noEffects, hN, hm]
  | false =>
    rw [hphase, if_neg Bool.false_ne_true] at hok
    cases hg : discriminator_critic_train_step cfg (preStep cfg s) with
    | error e =>
      rw [hg] at hok
      exact absurd hok (by simp [Except.map])
    | ok r =>
      obtain ⟨hr, -⟩ := disc_step_ok_inv _ _ _ hg
      subst hr
      rw [hg] at hok
      rw [show Except.map (postStep false) (Except.ok (discCore cfg (preStep cfg s)))
            = Except.ok (postStep false (discCore cfg (preStep cfg s))) from rfl,
          Except.ok.injEq, Prod.ext_iff] at hok
      obtain ⟨hs, he⟩ := hok
      subst hs
      subst he
      refine ⟨?_, ?_, ?_⟩
      · simp [postStep, discCore, preStep, hN]
      · simp [postStep, discCore, preStep, hN]
      · intro hgen
        exact absurd hgen (by simp)

/-- C10, witness: the throttled `GEN`-phase full-batch call of the C1
counterexample (`cfgNormals`, remainder `(-1 + 2) mod 4 = 1`) ends with zeroed
gradients and no optimizer step. -/
theorem C10_witness :
    genStart.full_batch = false ∧
    genStart.batches_accumulated + 1 = cfgNormals.accumulate_grad_batches ∧
    training_step cfgNormals genStart = .ok (throttledState, throttledEffects) ∧
    (throttledState.grads = 0 ∧ throttledEffects.zeroedAll = true ∧
      (genStart.generator_training = true →
        (genStart.generator_global_step + 2) % (numDiscriminators cfgNormals : Int) ≠ 0 →
        throttledEffects.stepped = [] ∧ throttledEffects.flushedGen = false)) :=
  ⟨rfl, by decide, rfl,
    C10_full_batch_zero_grad cfgNormals genStart throttledState throttledEffects
      rfl (by decide) rfl⟩

end HailMary
